import Mathlib

/-!
Shallow embedding of the trade-ingestion layer of the
real-time-crypto-price-predictor repository
(`services/trades/src/trades/`): the Trade record (`trade.py`), the
historical REST fetcher (`kraken_rest_api.py`), the live websocket
connector (`kraken_websocket_api.py`) and the ingestion coordinator
(`main.py`).

Python floats appearing as prices, quantities and second-resolution
timestamps are modelled as rationals; machine time (`time.time()`) is an
explicit rational parameter `now`; network and broker I/O are explicit
outcome parameters consumed by the functions that perform the I/O.
Python exceptions are modelled with `Except`/result constructors where
the source lets them escape, and are absorbed into ordinary return
values exactly where the source catches them.
-/

namespace Ingestion

/-- Python `int()` applied to a rational: truncation toward zero. -/
def qfloor (q : ℚ) : ℤ := Int.fdiv q.num (q.den : ℤ)

/-- Python `int()` truncates toward zero: floor for nonnegative values,
ceiling for negative ones. -/
def pyInt (q : ℚ) : ℤ := if 0 ≤ q then qfloor q else - qfloor (-q)

/-- Python built-in `round()` to an integer: round half to even. -/
def pyRound (q : ℚ) : ℤ :=
  let f := qfloor q
  let r := q - (f : ℚ)
  if r < 1/2 then f
  else if 1/2 < r then f + 1
  else if f % 2 = 0 then f else f + 1

/-- Trade model (`trade.py`, class `Trade`). `price` and `quantity` are
Python floats, modelled as rationals; `timestamp` is the ISO-8601 string;
`timestamp_ms` is milliseconds since epoch. -/
structure Trade where
  product_id : String
  price : ℚ
  quantity : ℚ
  timestamp : String
  timestamp_ms : ℤ
deriving Repr, DecidableEq

end Ingestion

namespace KrakenRESTAPI

open Ingestion

/-- One positional raw trade entry `[price, volume, time, ...]` from the
historical endpoint, classified by which of the `float(...)` parses in
the source succeed:
`bad` — `float(trade[2])` itself raises (the pagination loop's local
`try` skips the entry);
`timeOnly` — the time parses but price/volume do not, so
`_transform_trade` hits a `ValueError` and returns `None`;
`ok` — all three fields parse. -/
inductive RawEntry where
  | bad
  | timeOnly (time : ℚ)
  | ok (price volume time : ℚ)
deriving Repr, DecidableEq

/-- The `result` JSON object of a page response: an association list of
keys to raw entry arrays (the pair key), plus the `last` pagination
cursor retrieved by `result.get("last")`. -/
structure PageResponse where
  errors : List String
  resultKeys : List (String × List RawEntry)
  last : Option String
deriving Repr, DecidableEq

/-- Outcome of the single HTTP GET performed by `_fetch_trades_page`:
`timeout` — `requests.Timeout`;
`transportError` — `requests.RequestException` (includes non-2xx via
`raise_for_status`);
`malformed` — JSON decode failure or missing `result` key
(`KeyError`/`ValueError`);
`response` — a decoded response body. -/
inductive FetchOutcome where
  | timeout
  | transportError
  | malformed
  | response (r : PageResponse)
deriving Repr, DecidableEq

/-- The failure outcomes named by the spec for `_fetch_trades_page`:
timeout, transport error, malformed/unparseable response, or an upstream
response with a non-empty `error` field. -/
def FetchOutcome.isFailure : FetchOutcome → Bool
  | .timeout => true
  | .transportError => true
  | .malformed => true
  | .response r => !r.errors.isEmpty

/-- Embeds `_fetch_trades_page(product_id, since)` (`kraken_rest_api.py`,
lines 70-144). The request parameters (`pair`, optional `since`) are
built but the network's answer is the explicit `o`. Non-empty `error`
array, a `result` with no pair key, and every caught exception all
reduce to `([], None)`. -/
def fetchTradesPage (productId : String) (since : String) (o : FetchOutcome) :
    List RawEntry × Option String :=
  match o with
  | .timeout => ([], none)
  | .transportError => ([], none)
  | .malformed => ([], none)
  | .response r =>
    if !r.errors.isEmpty then ([], none)
    else
      match r.resultKeys.find? (fun kv => kv.1 != "last") with
      | none => ([], none)
      | some kv => (kv.2, r.last)

/-- The `trade_id` string `f"{product_id}_{request_count}_{i}"` built by
both pagination loops. -/
def mkTradeId (productId : String) (requestCount i : ℕ) : String :=
  s!"{productId}_{requestCount}_{i}"

/-- Embeds `_transform_trade` (`kraken_rest_api.py`, lines 146-184). `iso`
stands for `datetime.fromtimestamp(trade_time).isoformat()`, whose
string output never matters to any claim. The write into the
`trade_timestamps` dictionary is omitted: that dictionary is cleared at
the end of each fetch run and never read. `timestamp_ms` is
`int(trade_time * 1000)`. -/
def transformTrade (iso : ℚ → String) (tradeData : RawEntry)
    (productId tradeId : String) : Option Trade :=
  match tradeData with
  | .bad => none
  | .timeOnly _ => none
  | .ok p v t =>
    some { product_id := productId, price := p, quantity := v,
           timestamp := iso t, timestamp_ms := pyInt (t * 1000) }

/-- Embeds `float(trade[2])` as performed inside the pagination loops. -/
def parseTime : RawEntry → Option ℚ
  | .bad => none
  | .timeOnly t => some t
  | .ok _ _ t => some t

/-- Embeds `_convert_to_nanoseconds` (`kraken_rest_api.py`, lines 58-68):
`str(int(timestamp * 1_000_000_000))`. -/
def convertToNanoseconds (timestamp : ℚ) : String :=
  toString (pyInt (timestamp * 1000000000))

/-- The inner `for i, trade in enumerate(trades_data)` loop of
`get_trades_streaming` (`kraken_rest_api.py`, lines 264-283): parses
each entry's time, tracks `latest_trade_time` (initialised to 0 per
page), filters by the lookback boundary, transforms, and collects the
page's batch; per-entry exceptions are caught and skip the entry. -/
def processEntriesS (iso : ℚ → String) (earliest : ℚ) (pid : String) (rc : ℕ) :
    List RawEntry → ℕ → ℚ → List Trade → List Trade × ℚ
  | [], _, latest, batch => (batch, latest)
  | e :: rest, i, latest, batch =>
    match parseTime e with
    | none => processEntriesS iso earliest pid rc rest (i + 1) latest batch
    | some t =>
      let latest' := max latest t
      if earliest ≤ t then
        match transformTrade iso e pid (mkTradeId pid rc i) with
        | some tr =>
          processEntriesS iso earliest pid rc rest (i + 1) latest' (batch ++ [tr])
        | none => processEntriesS iso earliest pid rc rest (i + 1) latest' batch
      else processEntriesS iso earliest pid rc rest (i + 1) latest' batch

/-- The inner `for i, trade in enumerate(trades_data)` loop of the batch
`get_trades` (`kraken_rest_api.py`, lines 429-449); identical shape,
appending into `product_trades`. -/
def processEntriesB (iso : ℚ → String) (earliest : ℚ) (pid : String) (rc : ℕ) :
    List RawEntry → ℕ → ℚ → List Trade → List Trade × ℚ
  | [], _, latest, batch => (batch, latest)
  | e :: rest, i, latest, batch =>
    match parseTime e with
    | none => processEntriesB iso earliest pid rc rest (i + 1) latest batch
    | some t =>
      let latest' := max latest t
      if earliest ≤ t then
        match transformTrade iso e pid (mkTradeId pid rc i) with
        | some tr =>
          processEntriesB iso earliest pid rc rest (i + 1) latest' (batch ++ [tr])
        | none => processEntriesB iso earliest pid rc rest (i + 1) latest' batch
      else processEntriesB iso earliest pid rc rest (i + 1) latest' batch

/-- Whether a loop iteration breaks out of the `while True` or goes
round again. -/
inductive StepRes (σ : Type) where
  | done (st : σ)
  | next (st : σ)
deriving Repr, DecidableEq

/-- The state carried across iterations of the streaming pagination
loop for one product ID: `current_since`, `request_count`,
`consecutive_empty_pages`, the trades accumulated into `all_trades`
for this product, and the trace of callback invocations (each batch
passed to the callback and whether the callback raised — the raise is
caught and logged inside `get_trades_streaming`). -/
structure SPagSt where
  currentSince : String
  requestCount : ℕ
  consecutiveEmpty : ℕ
  allTrades : List Trade
  trace : List (List Trade × Bool)
deriving Repr, DecidableEq

/-- The state carried across iterations of the batch pagination loop
for one product ID (`product_trades` instead of direct `all_trades`
extension, no callback). -/
structure BPagSt where
  currentSince : String
  requestCount : ℕ
  consecutiveEmpty : ℕ
  productTrades : List Trade
deriving Repr, DecidableEq

/-- One iteration of the per-product `while True` loop of
`get_trades_streaming` (`kraken_rest_api.py`, lines 231-345), with the
page's network outcome `o` explicit and `cbFails rc` telling whether
the callback invocation for request `rc` raises. Break conditions, in
source order: three consecutive empty pages; latest observed trade
within 60 s of `now`; no `last` cursor; cursor unchanged. -/
def streamPageStep (iso : ℚ → String) (earliest now : ℚ) (cbFails : ℕ → Bool)
    (pid : String) (st : SPagSt) (o : FetchOutcome) : StepRes SPagSt :=
  let rc := st.requestCount + 1
  let (tradesData, lastId) := fetchTradesPage pid st.currentSince o
  if tradesData.isEmpty then
    let ce := st.consecutiveEmpty + 1
    if ce ≥ 3 then .done { st with requestCount := rc, consecutiveEmpty := ce }
    else .next { st with requestCount := rc, consecutiveEmpty := ce }
  else
    let st := { st with requestCount := rc, consecutiveEmpty := 0 }
    let (batch, latest) := processEntriesS iso earliest pid rc tradesData 0 0 []
    let st :=
      if batch.isEmpty then st
      else { st with allTrades := st.allTrades ++ batch,
                     trace := st.trace ++ [(batch, cbFails rc)] }
    if 0 < latest ∧ now - 60 ≤ latest then .done st
    else
      match lastId with
      | none => .done st
      | some lid =>
        if st.currentSince = lid then .done st
        else .next { st with currentSince := lid }

/-- One iteration of the per-product `while True` loop of the batch
`get_trades` (`kraken_rest_api.py`, lines 396-498): same shape, no
callback. -/
def batchPageStep (iso : ℚ → String) (earliest now : ℚ) (pid : String)
    (st : BPagSt) (o : FetchOutcome) : StepRes BPagSt :=
  let rc := st.requestCount + 1
  let (tradesData, lastId) := fetchTradesPage pid st.currentSince o
  if tradesData.isEmpty then
    let ce := st.consecutiveEmpty + 1
    if ce ≥ 3 then .done { st with requestCount := rc, consecutiveEmpty := ce }
    else .next { st with requestCount := rc, consecutiveEmpty := ce }
  else
    let st := { st with requestCount := rc, consecutiveEmpty := 0 }
    let (batch, latest) := processEntriesB iso earliest pid rc tradesData 0 0 []
    let st :=
      if batch.isEmpty then st
      else { st with productTrades := st.productTrades ++ batch }
    if 0 < latest ∧ now - 60 ≤ latest then .done st
    else
      match lastId with
      | none => .done st
      | some lid =>
        if st.currentSince = lid then .done st
        else .next { st with currentSince := lid }

/-- The per-product `while True` loop of `get_trades_streaming`, run
against a queue of network outcomes (one consumed per request; an
exhausted queue answers like a timeout) with `fuel` bounding the number
of iterations the model executes. Returns the loop's final state and
the unconsumed outcomes. -/
def streamRun (iso : ℚ → String) (earliest now : ℚ) (cbFails : ℕ → Bool)
    (pid : String) : ℕ → List FetchOutcome → SPagSt → SPagSt × List FetchOutcome
  | 0, env, st => (st, env)
  | fuel + 1, env, st =>
    match streamPageStep iso earliest now cbFails pid st (env.headD .timeout) with
    | .done st' => (st', env.tail)
    | .next st' => streamRun iso earliest now cbFails pid fuel env.tail st'

/-- The per-product `while True` loop of the batch `get_trades`. -/
def batchRun (iso : ℚ → String) (earliest now : ℚ) (pid : String) :
    ℕ → List FetchOutcome → BPagSt → BPagSt × List FetchOutcome
  | 0, env, st => (st, env)
  | fuel + 1, env, st =>
    match batchPageStep iso earliest now pid st (env.headD .timeout) with
    | .done st' => (st', env.tail)
    | .next st' => batchRun iso earliest now pid fuel env.tail st'

/-- Embeds `get_trades_streaming` (`kraken_rest_api.py`, lines 186-359):
sequential per-product pagination loops, each starting from the
nanosecond cursor of the lookback boundary, with trades appended to
`all_trades` page by page and callback invocations traced. Returns
(final trade list, callback trace, unconsumed outcomes). -/
def getTradesStreaming (iso : ℚ → String) (earliest now : ℚ)
    (cbFails : ℕ → Bool) (fuel : ℕ) :
    List String → List FetchOutcome →
    List Trade × List (List Trade × Bool) × List FetchOutcome
  | [], env => ([], [], env)
  | pid :: rest, env =>
    let r := streamRun iso earliest now cbFails pid fuel env
      { currentSince := convertToNanoseconds earliest, requestCount := 0,
        consecutiveEmpty := 0, allTrades := [], trace := [] }
    let rec' := getTradesStreaming iso earliest now cbFails fuel rest r.2
    (r.1.allTrades ++ rec'.1, r.1.trace ++ rec'.2.1, rec'.2.2)

/-- The batch `get_trades` (`kraken_rest_api.py`, lines 361-513):
sequential per-product pagination loops, `product_trades` extended into
`all_trades` after each product completes. Returns (final trade list,
unconsumed outcomes). -/
def getTrades (iso : ℚ → String) (earliest now : ℚ) (fuel : ℕ) :
    List String → List FetchOutcome → List Trade × List FetchOutcome
  | [], env => ([], env)
  | pid :: rest, env =>
    let r := batchRun iso earliest now pid fuel env
      { currentSince := convertToNanoseconds earliest, requestCount := 0,
        consecutiveEmpty := 0, productTrades := [] }
    let rec' := getTrades iso earliest now fuel rest r.2
    (r.1.productTrades ++ rec'.1, rec'.2)

/-- Forgetting the callback trace turns a streaming loop state into the
corresponding batch loop state. -/
def SPagSt.toB (st : SPagSt) : BPagSt :=
  { currentSince := st.currentSince, requestCount := st.requestCount,
    consecutiveEmpty := st.consecutiveEmpty, productTrades := st.allTrades }

/-- Functorial action on the break/continue result of one iteration. -/
def StepRes.map {σ τ : Type} (f : σ → τ) : StepRes σ → StepRes τ
  | .done st => .done (f st)
  | .next st => .next (f st)

/-- The state a break/continue result carries. -/
def StepRes.state {σ : Type} : StepRes σ → σ
  | .done st => st
  | .next st => st

end KrakenRESTAPI

namespace KrakenWebSocketAPI

open Ingestion

/-- Class constants (`kraken_websocket_api.py`, lines 24-28). -/
def RECONNECT_DELAY : ℚ := 5

/-- Source constant `MAX_RECONNECT_ATTEMPTS = 10`. -/
def MAX_RECONNECT_ATTEMPTS : ℕ := 10

/-- Source constant `HEARTBEAT_TIMEOUT = 30` seconds. -/
def HEARTBEAT_TIMEOUT : ℚ := 30

/-- The mutable connection state of a `KrakenWebSocketAPI` instance:
`_ws_client` (socket handles abstracted to numeric identities),
`_last_heartbeat`, `_reconnect_attempts`, `_connected`. -/
structure WsState where
  wsClient : Option ℕ
  lastHeartbeat : ℚ
  reconnectAttempts : ℕ
  connected : Bool
deriving Repr, DecidableEq

/-- Outcome of one `_connect` attempt against the real network:
`success` — `create_connection` and the subscribe handshake both
succeed, yielding a fresh socket;
`createFailed` — `create_connection` raises;
`subscribeFailed` — the socket is created but `_subscribe` raises
(the new socket stays in `_ws_client`). -/
inductive ConnectOutcome where
  | success (sock : ℕ)
  | createFailed
  | subscribeFailed (sock : ℕ)
deriving Repr, DecidableEq

/-- Embeds `_connect` (`kraken_websocket_api.py`, lines 43-74): cleans up any
existing connection, then attempts to connect and subscribe. Returns
the same `True`/`False` the source returns, paired with the new state. -/
def connectStep (now : ℚ) (o : ConnectOutcome) (st : WsState) : Bool × WsState :=
  let st := { st with wsClient := none, connected := false }
  match o with
  | .success sock =>
    (true, { wsClient := some sock, lastHeartbeat := now,
             reconnectAttempts := 0, connected := true })
  | .createFailed => (false, st)
  | .subscribeFailed sock => (false, { st with wsClient := some sock })

/-- The backoff delay slept before reconnection attempt `n`:
`min(RECONNECT_DELAY * 2 ** (n - 1), 60)` seconds. -/
def backoffDelay (n : ℕ) : ℚ := min (RECONNECT_DELAY * 2 ^ (n - 1)) 60

/-- Embeds `_reconnect` (`kraken_websocket_api.py`, lines 87-111). Returns
(source's boolean result, the delay slept if an attempt was made, the
new state). When `_reconnect_attempts >= MAX_RECONNECT_ATTEMPTS` it
returns `False` at once: no sleep, no connection attempt, state
untouched. -/
def reconnectStep (now : ℚ) (o : ConnectOutcome) (st : WsState) :
    Bool × Option ℚ × WsState :=
  if st.reconnectAttempts ≥ MAX_RECONNECT_ATTEMPTS then (false, none, st)
  else
    let st := { st with reconnectAttempts := st.reconnectAttempts + 1 }
    let delay := backoffDelay st.reconnectAttempts
    let (ok, st') := connectStep now o st
    (ok, some delay, st')

/-- Embeds `_is_connection_healthy` (`kraken_websocket_api.py`, lines 113-128). -/
def isConnectionHealthy (now : ℚ) (st : WsState) : Bool :=
  if !st.connected || st.wsClient.isNone then false
  else if now - st.lastHeartbeat > HEARTBEAT_TIMEOUT then false
  else true

/-- One raw trade object of a live `data` array
(`symbol, price, qty, timestamp`). `parsedTime` stands for
`datetime.fromisoformat(timestampStr).timestamp()`. -/
structure RawWsTrade where
  symbol : String
  price : ℚ
  qty : ℚ
  timestampStr : String
  parsedTime : ℚ
deriving Repr, DecidableEq

/-- The Trade constructed from one live raw trade
(`kraken_websocket_api.py`, lines 167-178):
`timestamp_ms = int(datetime.fromisoformat(timestamp).timestamp() * 1000)`. -/
def wsBuildTrade (w : RawWsTrade) : Trade :=
  { product_id := w.symbol, price := w.price, quantity := w.qty,
    timestamp := w.timestampStr, timestamp_ms := pyInt (w.parsedTime * 1000) }

/-- What `json.loads` plus the `data` lookup make of a raw message:
`malformed` — `json.JSONDecodeError`;
`noDataField` — decodes but has no `data` key (`KeyError`);
`trades` — a well-formed trade batch. -/
inductive WsParse where
  | malformed
  | noDataField
  | trades (ts : List RawWsTrade)
deriving Repr, DecidableEq

/-- A raw websocket text message together with what parsing it would
produce (in the source the parse is a function of the text; every
theorem below holds for all pairings). -/
structure RawMsg where
  text : String
  parse : WsParse
deriving Repr, DecidableEq

/-- Outcome of one `self._ws_client.recv()` call:
`timeout` — `WebSocketTimeoutException`;
`closed` — `WebSocketConnectionClosedException`;
`otherError` — any other exception;
`message` — a text message arrived. -/
inductive RecvOutcome where
  | timeout
  | closed
  | otherError
  | message (raw : RawMsg)
deriving Repr, DecidableEq

/-- Character-list version of Python's substring test `needle in hay`. -/
def startsWithChars : List Char → List Char → Bool
  | [], _ => true
  | _ :: _, [] => false
  | a :: as, b :: bs => a = b && startsWithChars as bs

/-- Python `needle in hay` on strings, as character lists. -/
def strHasSub (needle : List Char) : List Char → Bool
  | [] => needle.isEmpty
  | c :: rest => startsWithChars needle (c :: rest) || strHasSub needle rest

/-- The source's heartbeat test `'heartbeat' in data`, applied to the
raw message text before any JSON parsing. -/
def containsHeartbeat (s : String) : Bool :=
  strHasSub ("heartbeat".toList) s.toList

/-- Result of `get_trades`: a returned list, or an exception raised to
the caller. -/
inductive WsResult where
  | ok (trades : List Trade)
  | raised (msg : String)
deriving Repr, DecidableEq

/-- Embeds `get_trades` (`kraken_websocket_api.py`, lines 130-201).
`recon1` is the network outcome of the reconnection attempted when the
pre-receive health check fails; `recv` the outcome of the bounded
receive; `recon2` the outcome of the reconnection attempted from the
`closed`/`otherError` handlers. The heartbeat substring test runs on
the raw text before JSON decoding; decode and `data`-lookup failures
return `[]`. -/
def getTrades (now : ℚ) (recon1 recon2 : ConnectOutcome) (recv : RecvOutcome)
    (st : WsState) : WsResult × WsState :=
  let pre : Bool × WsState :=
    if !(isConnectionHealthy now st) then
      let (ok, _, st') := reconnectStep now recon1 st
      (ok, st')
    else (true, st)
  if !pre.1 then (.ok [], pre.2)
  else
    let st := pre.2
    match recv with
    | .timeout => (.ok [], st)
    | .message raw =>
      if containsHeartbeat raw.text then
        (.ok [], { st with lastHeartbeat := now })
      else
        match raw.parse with
        | .malformed => (.ok [], st)
        | .noDataField => (.ok [], st)
        | .trades ts => (.ok (ts.map wsBuildTrade), st)
    | .closed =>
      let st := { st with connected := false }
      let (ok, _, st') := reconnectStep now recon2 st
      if ok then (.ok [], st')
      else (.raised "WebSocket connection failed and could not reconnect", st')
    | .otherError =>
      let st := { st with connected := false }
      let (ok, _, st') := reconnectStep now recon2 st
      if !ok then (.raised "WebSocket error", st')
      else (.ok [], st')

end KrakenWebSocketAPI

namespace TradesMain

open Ingestion

/-- The global `health_status` dictionary (`main.py`, lines 21-27). -/
structure HealthStatus where
  healthy : Bool
  ready : Bool
  lastTradeTime : Option ℚ
  websocketConnected : Bool
  kafkaConnected : Bool
deriving Repr, DecidableEq

/-- Embeds `HealthHandler._handle_ready` (`main.py`, lines 55-83), reduced to
the HTTP status code it sends: `200` when
`health_status["ready"] and health_status["websocket_connected"]`,
`503` otherwise. -/
def handleReady (h : HealthStatus) : ℕ :=
  if h.ready && h.websocketConnected then 200 else 503

/-- Embeds `HealthHandler._handle_health` (`main.py`, lines 42-53). -/
def handleHealth (h : HealthStatus) : ℕ :=
  if h.healthy then 200 else 503

/-- Outcome of serializing one Trade and handing it to the Kafka
producer: either both steps succeed, or one of them raises. -/
inductive PubOutcome where
  | ok
  | fail
deriving Repr, DecidableEq

/-- Embeds `publish_trade` (`main.py`, lines 133-149). On success it marks
`kafka_connected` and refreshes `last_trade_time`; on failure it logs,
marks `kafka_connected = False` and re-raises (`Except.error` carries
the health state as left by the handler). -/
def publishTrade (now : ℚ) (o : PubOutcome) (h : HealthStatus) :
    Except HealthStatus HealthStatus :=
  match o with
  | .ok => .ok { h with kafkaConnected := true, lastTradeTime := some now }
  | .fail => .error { h with kafkaConnected := false }

/-- The per-trade publishing loop of the live mode (`main.py`,
lines 299-305): each `publish_trade` call sits in its own
`try/except` that logs the failure and continues with the next event,
so no publish failure escapes this loop. -/
def publishEventsLoop (now : ℚ) : List (Ingestion.Trade × PubOutcome) →
    HealthStatus → HealthStatus
  | [], h => h
  | (_, o) :: rest, h =>
    match publishTrade now o h with
    | .ok h' => publishEventsLoop now rest h'
    | .error h' => publishEventsLoop now rest h'

/-- The publishing loop of `_process_historical_data_batch` (`main.py`,
lines 240-249): `publish_trade` is called with no per-event handler, so
the first failure aborts the loop and propagates (the enclosing
`try/except` logs and re-raises it). -/
def publishAllBatch (now : ℚ) : List (Ingestion.Trade × PubOutcome) →
    HealthStatus → Except HealthStatus HealthStatus
  | [], h => .ok h
  | (_, o) :: rest, h =>
    match publishTrade now o h with
    | .ok h' => publishAllBatch now rest h'
    | .error h' => .error h'

/-- Loop-local state of `process_websocket_data` (`main.py`,
lines 274-285): `consecutive_errors`, `error_backoff_delay`,
`last_successful_trade`, `connection_health_checks`. -/
structure LiveSt where
  consecutiveErrors : ℕ
  errorBackoffDelay : ℚ
  lastSuccessfulTrade : ℚ
  connectionHealthChecks : ℕ
deriving Repr, DecidableEq

/-- Source constant `max_consecutive_errors = 5` (`main.py`, line 275). -/
def MAX_CONSECUTIVE_ERRORS : ℕ := 5

/-- Source constant `max_silence_duration = 300` seconds (`main.py`, line 281). -/
def MAX_SILENCE_DURATION : ℚ := 300

/-- Source constant `max_health_checks_without_data = 10` (`main.py`, line 285). -/
def MAX_HEALTH_CHECKS_WITHOUT_DATA : ℕ := 10

/-- What one iteration of the `while True` loop of
`process_websocket_data` does to control flow: `continued` loops again,
`fatal` raises out of the loop. -/
inductive LiveOutcome where
  | continued
  | fatal (msg : String)
deriving Repr, DecidableEq

/-- What `kraken_api.get_trades()` did this iteration: returned a batch
(each trade paired with the outcome its publish would have), or raised. -/
inductive PollResult where
  | events (batch : List (Ingestion.Trade × PubOutcome))
  | raised (msg : String)
deriving Repr, DecidableEq

/-- Result of one iteration of the live loop: control-flow outcome, the
loop state, the health state, the connector's `_connected` flag as the
coordinator leaves it, and the exception caught by the iteration's
`except` handler, if any. -/
structure LiveStepResult where
  outcome : LiveOutcome
  st : LiveSt
  health : HealthStatus
  connected : Bool
  caught : Option String
deriving Repr, DecidableEq

/-- The fatal message raised after too many consecutive errors
(`main.py`, lines 345-347). -/
def wsFailMsg (n : ℕ) : String :=
  s!"WebSocket service failed after {n} consecutive errors"

/-- The `except` handler of the live loop (`main.py`, lines 326-354):
increments `consecutive_errors`, drops `websocket_connected`, resets
`connection_health_checks`; at `max_consecutive_errors` it degrades
health and re-raises, otherwise it sleeps the backoff delay and doubles
it (capped at 60). -/
def liveExcept (msg : String) (st : LiveSt) (h : HealthStatus) (conn : Bool) :
    LiveStepResult :=
  let st := { st with consecutiveErrors := st.consecutiveErrors + 1,
                      connectionHealthChecks := 0 }
  let h := { h with websocketConnected := false }
  if st.consecutiveErrors ≥ MAX_CONSECUTIVE_ERRORS then
    { outcome := .fatal (wsFailMsg st.consecutiveErrors),
      st := st,
      health := { h with healthy := false, ready := false },
      connected := conn, caught := some msg }
  else
    { outcome := .continued,
      st := { st with errorBackoffDelay := min (st.errorBackoffDelay * 2) 60 },
      health := h, connected := conn, caught := some msg }

/-- One iteration of the `while True` loop of `process_websocket_data`
(`main.py`, lines 287-354). A non-empty batch resets the error
counters and publishes every event (failures absorbed inside the inner
loop); an empty batch bumps `connection_health_checks` and, when the
silence duration or the health-check bound is exceeded, forces
`kraken_api._connected = False` and raises the stale-connection
exception into the iteration's own `except` handler. -/
def liveIterate (now : ℚ) (poll : PollResult) (st : LiveSt) (h : HealthStatus)
    (conn : Bool) : LiveStepResult :=
  match poll with
  | .events batch =>
    if !batch.isEmpty then
      let st := { st with consecutiveErrors := 0, errorBackoffDelay := 1,
                          lastSuccessfulTrade := now, connectionHealthChecks := 0 }
      let h := { h with websocketConnected := true }
      let h := publishEventsLoop now batch h
      { outcome := .continued, st := st, health := h, connected := conn,
        caught := none }
    else
      let st := { st with connectionHealthChecks := st.connectionHealthChecks + 1 }
      if now - st.lastSuccessfulTrade > MAX_SILENCE_DURATION
          ∨ st.connectionHealthChecks > MAX_HEALTH_CHECKS_WITHOUT_DATA then
        liveExcept "Stale connection detected, forcing reconnection" st h false
      else
        { outcome := .continued, st := st, health := h, connected := conn,
          caught := none }
  | .raised msg => liveExcept msg st h conn

end TradesMain

namespace Spec2Proof

open Ingestion KrakenRESTAPI KrakenWebSocketAPI TradesMain

/-- An arbitrary ISO formatter used to instantiate witnesses. -/
def iso0 : ℚ → String := fun _ => ""

/-- The property claim C2 asserts of the REST transform at one entry:
`timestamp_ms == round(parsed_timestamp_seconds * 1000)` with Python
`round`. -/
def c2ClaimedAtRest (t : ℚ) : Prop :=
  (transformTrade iso0 (.ok 1 1 t) "BTC/EUR" "BTC/EUR_1_0").map Trade.timestamp_ms
    = some (pyRound (t * 1000))

/-- A health state that is ready and websocket-connected but neither
healthy nor kafka-connected. -/
def readyCEx : HealthStatus :=
  { healthy := false, ready := true, lastTradeTime := none,
    websocketConnected := true, kafkaConnected := false }

/-- A live-connector state with exhausted reconnection attempts. -/
def wsStExhausted : WsState :=
  { wsClient := none, lastHeartbeat := 0, reconnectAttempts := 10,
    connected := false }

/-- A healthy live-connector state at time 0. -/
def wsHealthy0 : WsState :=
  { wsClient := some 0, lastHeartbeat := 0, reconnectAttempts := 0,
    connected := true }

/-- A concrete raw live trade whose message text will contain the
substring "heartbeat". -/
def wsTrade0 : RawWsTrade :=
  { symbol := "BTC/EUR", price := 50000, qty := 1,
    timestampStr := "2025-01-01T00:00:00Z", parsedTime := 1735689600 }

/-- A well-formed trade-batch message whose raw text contains the
substring "heartbeat" in its payload. -/
def heartbeatishMsg : RawMsg :=
  { text := "data about the heartbeat-coin trade", parse := .trades [wsTrade0] }

/-- A concrete trade used to drive the coordinator models. -/
def sampleTrade : Trade :=
  { product_id := "BTC/EUR", price := 50000, quantity := 1,
    timestamp := "2025-01-01T00:00:00Z", timestamp_ms := 1735689600000 }

/-- Coordinator health state with everything up. -/
def healthUp : HealthStatus :=
  { healthy := true, ready := true, lastTradeTime := none,
    websocketConnected := true, kafkaConnected := true }

/-- Live-loop state as initialised by `process_websocket_data`. -/
def liveSt0 : LiveSt :=
  { consecutiveErrors := 0, errorBackoffDelay := 1, lastSuccessfulTrade := 0,
    connectionHealthChecks := 0 }

/-- Live-loop state after ten consecutive empty polls. -/
def liveSt10 : LiveSt :=
  { consecutiveErrors := 0, errorBackoffDelay := 1, lastSuccessfulTrade := 0,
    connectionHealthChecks := 10 }

end Spec2Proof

namespace Spec2Proof

open Ingestion KrakenRESTAPI KrakenWebSocketAPI TradesMain

/-- The two copies of the inner entry loop collect the same batch and
the same latest trade time. -/
theorem processEntries_SB_eq (iso : ℚ → String) (earliest : ℚ) (pid : String)
    (rc : ℕ) :
    ∀ (es : List RawEntry) (i : ℕ) (latest : ℚ) (batch : List Trade),
      processEntriesS iso earliest pid rc es i latest batch
        = processEntriesB iso earliest pid rc es i latest batch := by
  intro es
  induction es with
  | nil => intro i latest batch; rfl
  | cons e rest ih =>
    intro i latest batch
    cases e with
    | bad => simpa [processEntriesS, processEntriesB, parseTime] using ih ..
    | timeOnly t =>
      simp only [processEntriesS, processEntriesB, parseTime, transformTrade]
      split <;> exact ih ..
    | ok p v t =>
      simp only [processEntriesS, processEntriesB, parseTime, transformTrade]
      split <;> exact ih ..

/-- Projection facts for the trace-forgetting map. -/
theorem toB_currentSince (st : SPagSt) : st.toB.currentSince = st.currentSince := rfl

/-- Projection facts for the trace-forgetting map. -/
theorem toB_requestCount (st : SPagSt) : st.toB.requestCount = st.requestCount := rfl

/-- Projection facts for the trace-forgetting map. -/
theorem toB_consecutiveEmpty (st : SPagSt) :
    st.toB.consecutiveEmpty = st.consecutiveEmpty := rfl

/-- Projection facts for the trace-forgetting map. -/
theorem toB_productTrades (st : SPagSt) : st.toB.productTrades = st.allTrades := rfl

/-- One streaming-loop iteration and one batch-loop iteration agree
modulo forgetting the callback trace. -/
theorem pageStep_SB (iso : ℚ → String) (earliest now : ℚ) (cbFails : ℕ → Bool)
    (pid : String) (st : SPagSt) (o : FetchOutcome) :
    batchPageStep iso earliest now pid st.toB o
      = (streamPageStep iso earliest now cbFails pid st o).map SPagSt.toB := by
  unfold batchPageStep streamPageStep
  simp only [toB_currentSince, toB_requestCount, toB_consecutiveEmpty,
    toB_productTrades]
  rcases hfp : fetchTradesPage pid st.currentSince o with ⟨td, li⟩
  dsimp only
  rw [processEntries_SB_eq iso earliest pid (st.requestCount + 1) td 0 0 []]
  by_cases hemp : td.isEmpty
  · simp only [hemp, if_true]
    split <;> simp [StepRes.map, SPagSt.toB]
  · simp only [hemp, Bool.false_eq_true, if_false]
    rcases hpe : processEntriesB iso earliest pid (st.requestCount + 1) td 0 0 []
      with ⟨batch, latest⟩
    dsimp only
    by_cases hbe : batch.isEmpty <;>
      simp only [hbe, if_true, Bool.false_eq_true, if_false] <;>
      · split
        · simp [StepRes.map, SPagSt.toB]
        · cases li with
          | none => simp [StepRes.map, SPagSt.toB]
          | some lid =>
            by_cases hsame : st.currentSince = lid <;>
              simp [StepRes.map, SPagSt.toB, hsame]

/-- The per-product loops agree modulo forgetting the callback trace. -/
theorem run_SB (iso : ℚ → String) (earliest now : ℚ) (cbFails : ℕ → Bool)
    (pid : String) :
    ∀ (fuel : ℕ) (env : List FetchOutcome) (st : SPagSt),
      batchRun iso earliest now pid fuel env st.toB
        = ((streamRun iso earliest now cbFails pid fuel env st).1.toB,
           (streamRun iso earliest now cbFails pid fuel env st).2) := by
  intro fuel
  induction fuel with
  | zero => intro env st; rfl
  | succ n ih =>
    intro env st
    simp only [batchRun, streamRun, pageStep_SB iso earliest now cbFails]
    rcases streamPageStep iso earliest now cbFails pid st (env.headD .timeout)
      with st' | st' <;> simp [StepRes.map, ih]

/-- The full streaming and batch fetchers agree: same final trade list,
same consumed outcome queue, for any callback behaviour. -/
theorem top_SB (iso : ℚ → String) (earliest now : ℚ) (cbFails : ℕ → Bool)
    (fuel : ℕ) :
    ∀ (ids : List String) (env : List FetchOutcome),
      KrakenRESTAPI.getTrades iso earliest now fuel ids env
        = ((getTradesStreaming iso earliest now cbFails fuel ids env).1,
           (getTradesStreaming iso earliest now cbFails fuel ids env).2.2) := by
  intro ids
  induction ids with
  | nil => intro env; rfl
  | cons pid rest ih =>
    intro env
    simp only [KrakenRESTAPI.getTrades, getTradesStreaming]
    rw [show ({ currentSince := convertToNanoseconds earliest, requestCount := 0,
                consecutiveEmpty := 0, productTrades := [] } : BPagSt)
          = SPagSt.toB { currentSince := convertToNanoseconds earliest,
                         requestCount := 0, consecutiveEmpty := 0,
                         allTrades := [], trace := [] } from rfl]
    rw [run_SB iso earliest now cbFails pid fuel env]
    simp [ih, SPagSt.toB]

/-- Whether the streaming callback raises never changes the trade list
`get_trades_streaming` returns. -/
theorem streaming_trades_cb_invariant (iso : ℚ → String) (earliest now : ℚ)
    (cb cb' : ℕ → Bool) (fuel : ℕ) (ids : List String)
    (env : List FetchOutcome) :
    (getTradesStreaming iso earliest now cb fuel ids env).1
      = (getTradesStreaming iso earliest now cb' fuel ids env).1 := by
  have e1 : (KrakenRESTAPI.getTrades iso earliest now fuel ids env).1
      = (getTradesStreaming iso earliest now cb fuel ids env).1 :=
    congrArg Prod.fst (top_SB iso earliest now cb fuel ids env)
  have e2 : (KrakenRESTAPI.getTrades iso earliest now fuel ids env).1
      = (getTradesStreaming iso earliest now cb' fuel ids env).1 :=
    congrArg Prod.fst (top_SB iso earliest now cb' fuel ids env)
  exact e1.symm.trans e2

/-- Claim C2 (counterexample): at parsed trade time 1/1024 s (exactly
representable in binary floating point), the constructed Trade has
`timestamp_ms = int(1000/1024) = 0`, while `round(1000/1024) = 1`: the
code truncates rather than rounds. -/
theorem C2_counterexample : ¬ c2ClaimedAtRest (1/1024) := by
  unfold c2ClaimedAtRest
  with_unfolding_all decide

/-- Claim C2 (amended): for every raw trade entry successfully parsed by
either fetch path, `timestamp_ms == int(parsed_timestamp_seconds * 1000)`
— Python truncation toward zero, not `round`. -/
theorem C2_timestamp_ms_truncation :
    (∀ (iso : ℚ → String) (p v t : ℚ) (pid tid : String),
      transformTrade iso (.ok p v t) pid tid
        = some { product_id := pid, price := p, quantity := v,
                 timestamp := iso t, timestamp_ms := pyInt (t * 1000) })
    ∧ (∀ w : RawWsTrade, (wsBuildTrade w).timestamp_ms = pyInt (w.parsedTime * 1000)) :=
  ⟨fun _ _ _ _ _ _ => rfl, fun _ => rfl⟩

/-- Witness for C2's amended theorem at concrete entries on both paths. -/
theorem C2_timestamp_ms_truncation_witness :
    transformTrade iso0 (.ok 1 1 (1/1024)) "BTC/EUR" "BTC/EUR_1_0"
        = some { product_id := "BTC/EUR", price := 1, quantity := 1,
                 timestamp := iso0 (1/1024),
                 timestamp_ms := pyInt ((1/1024) * 1000) }
      ∧ (wsBuildTrade wsTrade0).timestamp_ms = pyInt (wsTrade0.parsedTime * 1000) :=
  ⟨C2_timestamp_ms_truncation.1 iso0 1 1 (1/1024) "BTC/EUR" "BTC/EUR_1_0",
   C2_timestamp_ms_truncation.2 wsTrade0⟩

/-- Claim C3 (counterexample): in the state that is ready and
websocket-connected but unhealthy and not kafka-connected, `/ready`
answers 200, yet the claimed condition (healthy AND live-source AND
queue connected) is false. -/
theorem C3_counterexample :
    ¬ (handleReady readyCEx = 200 ↔
        (readyCEx.healthy = true ∧ readyCEx.websocketConnected = true
          ∧ readyCEx.kafkaConnected = true)) := by
  decide

/-- Claim C3 (amended): `/ready` responds 200 exactly when the `ready`
flag and the `websocket_connected` flag are both set; the `healthy` and
`kafka_connected` flags are not consulted for the status code. -/
theorem C3_ready_endpoint :
    ∀ h : HealthStatus,
      handleReady h = 200 ↔ (h.ready = true ∧ h.websocketConnected = true) := by
  intro h
  rcases h with ⟨hh, hr, hl, hw, hk⟩
  cases hr <;> cases hw <;> simp [handleReady]

/-- Witness for C3's amended theorem at a concrete health state. -/
theorem C3_ready_endpoint_witness : handleReady readyCEx = 200 :=
  (C3_ready_endpoint readyCEx).mpr ⟨rfl, rfl⟩

/-- Claim C6: for every product ID and cursor, every failure outcome of
`_fetch_trades_page` — timeout, transport error, malformed response, or
an upstream response with a non-empty error field — produces
`([], None)` and (being a total function of the outcome) never raises. -/
theorem C6_fetch_page_failures :
    ∀ (pid since : String) (o : FetchOutcome),
      o.isFailure = true → fetchTradesPage pid since o = ([], none) := by
  intro pid since o h
  cases o with
  | timeout => rfl
  | transportError => rfl
  | malformed => rfl
  | response r =>
    simp only [FetchOutcome.isFailure] at h
    simp [fetchTradesPage, h]

/-- Witness for C6 at a concrete failing input. -/
theorem C6_fetch_page_failures_witness :
    FetchOutcome.isFailure .timeout = true
      ∧ fetchTradesPage "BTC/EUR" "0" .timeout = ([], none) :=
  ⟨by decide, C6_fetch_page_failures "BTC/EUR" "0" .timeout (by decide)⟩

/-- Claim C8: when the connection is healthy and the bounded receive
times out, `get_trades` returns an empty list and leaves every
connection-state field (socket handle, last-heartbeat time,
reconnect-attempt counter, connected flag) unchanged. -/
theorem C8_timeout_frame :
    ∀ (now : ℚ) (r1 r2 : ConnectOutcome) (st : WsState),
      isConnectionHealthy now st = true →
      KrakenWebSocketAPI.getTrades now r1 r2 .timeout st = (.ok [], st) := by
  intro now r1 r2 st h
  simp [KrakenWebSocketAPI.getTrades, h]

/-- Witness for C8 at a concrete healthy state. -/
theorem C8_timeout_frame_witness :
    isConnectionHealthy 0 wsHealthy0 = true
      ∧ KrakenWebSocketAPI.getTrades 0 .createFailed .createFailed .timeout wsHealthy0
          = (.ok [], wsHealthy0) :=
  ⟨by with_unfolding_all decide,
   C8_timeout_frame 0 .createFailed .createFailed wsHealthy0
     (by with_unfolding_all decide)⟩

/-- Claim C9: any raw message whose text contains the substring
"heartbeat" makes `get_trades` refresh the last-heartbeat time and
return an empty list without reaching the JSON parse — whatever the
message would have parsed to, including a well-formed trade batch,
whose trades are therefore dropped. -/
theorem C9_heartbeat_substring :
    ∀ (now : ℚ) (r1 r2 : ConnectOutcome) (st : WsState) (raw : RawMsg),
      isConnectionHealthy now st = true →
      containsHeartbeat raw.text = true →
      KrakenWebSocketAPI.getTrades now r1 r2 (.message raw) st
        = (.ok [], { st with lastHeartbeat := now }) := by
  intro now r1 r2 st raw hHealthy hHb
  simp [KrakenWebSocketAPI.getTrades, hHealthy, hHb]

/-- Witness for C9: a message that parses to a non-empty trade batch
but whose text contains "heartbeat" yields no trades. -/
theorem C9_heartbeat_substring_witness :
    containsHeartbeat heartbeatishMsg.text = true
      ∧ heartbeatishMsg.parse = .trades [wsTrade0]
      ∧ KrakenWebSocketAPI.getTrades 0 .createFailed .createFailed
          (.message heartbeatishMsg) wsHealthy0
          = (.ok [], { wsHealthy0 with lastHeartbeat := 0 }) :=
  ⟨by decide, rfl,
   C9_heartbeat_substring 0 .createFailed .createFailed wsHealthy0 heartbeatishMsg
     (by with_unfolding_all decide) (by decide)⟩

/-- Claim C4 (counterexample): with the attempt counter at the maximum
(10) and an unhealthy connection, `get_trades` returns an empty list
with the state untouched: the exhaustion is not surfaced as a fatal
error to the caller in this path. -/
theorem C4_counterexample :
    KrakenWebSocketAPI.getTrades 100 .createFailed .createFailed .timeout wsStExhausted
      = (.ok [], wsStExhausted) := by
  with_unfolding_all decide

/-- Claim C4 (amended): the backoff delay before reconnection attempt
`n` is `min(5 * 2^(n-1), 60)` seconds — strictly increasing through
5, 10, 20, 40, 60 and constant 60 from attempt 5 on — and once the
attempt counter reaches the maximum (10), `_reconnect` makes no further
connection attempt (no sleep, state unchanged, returns failure); the
exhaustion is raised as a fatal error to the caller only in the
receive-error paths of `get_trades`, while the pre-receive health-check
path returns an empty list. -/
theorem C4_reconnect_backoff :
    (∀ (now : ℚ) (o : ConnectOutcome) (st : WsState),
      st.reconnectAttempts < MAX_RECONNECT_ATTEMPTS →
      (reconnectStep now o st).2.1 = some (backoffDelay (st.reconnectAttempts + 1)))
    ∧ (∀ n : ℕ, 1 ≤ n → n ≤ 4 → backoffDelay n < backoffDelay (n + 1))
    ∧ (∀ n : ℕ, 5 ≤ n → backoffDelay n = 60)
    ∧ (∀ (now : ℚ) (o : ConnectOutcome) (st : WsState),
      MAX_RECONNECT_ATTEMPTS ≤ st.reconnectAttempts →
      reconnectStep now o st = (false, none, st))
    ∧ (∀ (now : ℚ) (r1 r2 : ConnectOutcome) (st : WsState),
      isConnectionHealthy now st = false →
      MAX_RECONNECT_ATTEMPTS ≤ st.reconnectAttempts →
      KrakenWebSocketAPI.getTrades now r1 r2 .timeout st = (.ok [], st))
    ∧ (∀ (now : ℚ) (r1 r2 : ConnectOutcome) (st : WsState),
      isConnectionHealthy now st = true →
      MAX_RECONNECT_ATTEMPTS ≤ st.reconnectAttempts →
      KrakenWebSocketAPI.getTrades now r1 r2 .closed st
        = (.raised "WebSocket connection failed and could not reconnect",
           { st with connected := false })) := by
  refine ⟨?_, ?_, ?_, ?_, ?_, ?_⟩
  · intro now o st h
    simp only [reconnectStep, MAX_RECONNECT_ATTEMPTS] at *
    rw [if_neg (by omega)]
  · intro n h1 h4
    interval_cases n <;> norm_num [backoffDelay, RECONNECT_DELAY]
  · intro n h5
    have h2 : (2:ℚ) ^ 4 ≤ 2 ^ (n - 1) := by
      apply pow_le_pow_right₀ (by norm_num)
      omega
    have : (60:ℚ) ≤ RECONNECT_DELAY * 2 ^ (n - 1) := by
      rw [RECONNECT_DELAY]
      nlinarith
    simp [backoffDelay, min_eq_right this]
  · intro now o st h
    simp [reconnectStep, h]
  · intro now r1 r2 st hUnhealthy hMax
    simp [KrakenWebSocketAPI.getTrades, hUnhealthy, reconnectStep, hMax]
  · intro now r1 r2 st hHealthy hMax
    simp [KrakenWebSocketAPI.getTrades, hHealthy, reconnectStep, hMax]

/-- Witness for C4 at concrete inputs: the fifth attempt's delay is
capped at 60 s, the fourth attempt sleeps 40 s, and exhausted attempts
make no connection attempt. -/
theorem C4_reconnect_backoff_witness :
    (reconnectStep 0 .createFailed
        { wsClient := none, lastHeartbeat := 0, reconnectAttempts := 3,
          connected := false }).2.1 = some (backoffDelay 4)
      ∧ backoffDelay 4 < backoffDelay 5
      ∧ backoffDelay 5 = 60
      ∧ reconnectStep 0 .createFailed wsStExhausted = (false, none, wsStExhausted)
      ∧ KrakenWebSocketAPI.getTrades 100 .createFailed .createFailed .timeout
          wsStExhausted = (.ok [], wsStExhausted) :=
  ⟨C4_reconnect_backoff.1 0 .createFailed _ (by decide),
   C4_reconnect_backoff.2.1 4 (by decide) (by decide),
   C4_reconnect_backoff.2.2.1 5 (by decide),
   C4_reconnect_backoff.2.2.2.1 0 .createFailed wsStExhausted (by decide),
   C4_reconnect_backoff.2.2.2.2.1 100 .createFailed .createFailed wsStExhausted
     (by with_unfolding_all decide) (by decide)⟩

/-- Claim C1 (counterexample): in the live loop, a batch whose first
trade fails to publish is absorbed — the iteration continues normally,
its `except` handler catches nothing, and the loop goes on to publish
the remaining trades (the final `kafka_connected = true` shows the
second publish ran). No failure reaches the caller of the loop. -/
theorem C1_counterexample :
    (liveIterate 0 (.events [(sampleTrade, .fail), (sampleTrade, .ok)])
        liveSt0 healthUp true).outcome = .continued
      ∧ (liveIterate 0 (.events [(sampleTrade, .fail), (sampleTrade, .ok)])
          liveSt0 healthUp true).caught = none
      ∧ (liveIterate 0 (.events [(sampleTrade, .fail), (sampleTrade, .ok)])
          liveSt0 healthUp true).health.kafkaConnected = true := by
  with_unfolding_all decide

/-- Claim C1 (amended): `publish_trade` re-raises every publish failure
to its immediate caller, and the batch backfill loop propagates a
failure from any position; but the live loop's per-trade handler
absorbs every publish failure (the iteration continues and its `except`
handler catches nothing), and a raising streaming callback never
changes the result of `get_trades_streaming` — so in those two paths no
publish failure is re-raised to the caller of the enclosing ingestion
loop. -/
theorem C1_publish_failure_scope :
    (∀ (now : ℚ) (h : HealthStatus),
      publishTrade now .fail h = .error { h with kafkaConnected := false })
    ∧ (∀ (now : ℚ) (evs : List (Trade × PubOutcome)) (h : HealthStatus),
      (∃ e ∈ evs, e.2 = .fail) →
      ∃ h', publishAllBatch now evs h = .error h')
    ∧ (∀ (now : ℚ) (evs : List (Trade × PubOutcome)) (st : LiveSt)
        (h : HealthStatus) (conn : Bool), evs ≠ [] →
      (liveIterate now (.events evs) st h conn).outcome = .continued
        ∧ (liveIterate now (.events evs) st h conn).caught = none)
    ∧ (∀ (iso : ℚ → String) (earliest now : ℚ) (cb cb' : ℕ → Bool) (fuel : ℕ)
        (ids : List String) (env : List FetchOutcome),
      (getTradesStreaming iso earliest now cb fuel ids env).1
        = (getTradesStreaming iso earliest now cb' fuel ids env).1) := by
  refine ⟨fun _ _ => rfl, ?_, ?_, ?_⟩
  · intro now evs
    induction evs with
    | nil => intro h ⟨e, he, _⟩; exact absurd he (List.not_mem_nil e)
    | cons p rest ih =>
      intro h hex
      rcases p with ⟨t, o⟩
      cases o with
      | fail => exact ⟨_, rfl⟩
      | ok =>
        rcases hex with ⟨e, he, hfail⟩
        rcases List.mem_cons.mp he with rfl | hmem
        · exact absurd hfail (by simp)
        · rcases ih _ ⟨e, hmem, hfail⟩ with ⟨h', hh⟩
          exact ⟨h', by simpa [publishAllBatch, publishTrade] using hh⟩
  · intro now evs st h conn hne
    have : evs.isEmpty = false := by
      cases evs with
      | nil => exact absurd rfl hne
      | cons a l => rfl
    constructor <;> simp [liveIterate, this]
  · intro iso earliest now cb cb' fuel ids env
    exact streaming_trades_cb_invariant iso earliest now cb cb' fuel ids env

/-- Witness for C1 at concrete inputs: a failure in the second position
propagates out of the batch publish loop, while the live loop absorbs a
failing batch and continues. -/
theorem C1_publish_failure_scope_witness :
    (∃ h', publishAllBatch 0 [(sampleTrade, .ok), (sampleTrade, .fail)] healthUp
        = .error h')
      ∧ (liveIterate 0 (.events [(sampleTrade, .fail)]) liveSt0 healthUp
          true).outcome = .continued
      ∧ (liveIterate 0 (.events [(sampleTrade, .fail)]) liveSt0 healthUp
          true).caught = none :=
  ⟨C1_publish_failure_scope.2.1 0 _ healthUp ⟨(sampleTrade, .fail), by simp, rfl⟩,
   (C1_publish_failure_scope.2.2.1 0 [(sampleTrade, .fail)] liveSt0 healthUp true
     (by simp)).1,
   (C1_publish_failure_scope.2.2.1 0 [(sampleTrade, .fail)] liveSt0 healthUp true
     (by simp)).2⟩

/-- On a page whose fetch produced no entries, the streaming loop
iteration only bumps the request and consecutive-empty counters, and
continues when the empty streak is still short. -/
theorem streamPageStep_empty_next (iso : ℚ → String) (earliest now : ℚ)
    (cb : ℕ → Bool) (pid : String) (st : SPagSt) (o : FetchOutcome)
    (he : (fetchTradesPage pid st.currentSince o).1 = [])
    (hlt : st.consecutiveEmpty + 1 < 3) :
    streamPageStep iso earliest now cb pid st o
      = .next { st with requestCount := st.requestCount + 1,
                        consecutiveEmpty := st.consecutiveEmpty + 1 } := by
  unfold streamPageStep
  rcases hfp : fetchTradesPage pid st.currentSince o with ⟨td, li⟩
  rw [hfp] at he
  dsimp only at he ⊢
  subst he
  simp [show ¬ (st.consecutiveEmpty + 1 ≥ 3) by omega]

/-- On the third consecutive empty page the streaming loop gives up on
the product ID. -/
theorem streamPageStep_empty_done (iso : ℚ → String) (earliest now : ℚ)
    (cb : ℕ → Bool) (pid : String) (st : SPagSt) (o : FetchOutcome)
    (he : (fetchTradesPage pid st.currentSince o).1 = [])
    (hge : 3 ≤ st.consecutiveEmpty + 1) :
    streamPageStep iso earliest now cb pid st o
      = .done { st with requestCount := st.requestCount + 1,
                        consecutiveEmpty := st.consecutiveEmpty + 1 } := by
  unfold streamPageStep
  rcases hfp : fetchTradesPage pid st.currentSince o with ⟨td, li⟩
  rw [hfp] at he
  dsimp only at he ⊢
  subst he
  simp [show st.consecutiveEmpty + 1 ≥ 3 from hge]

/-- Three consecutive empty pages terminate the per-product streaming
loop after exactly three requests, leaving the accumulated trades and
trace untouched and the remaining outcome queue for the next product. -/
theorem streamRun_three_empty (iso : ℚ → String) (earliest now : ℚ)
    (cb : ℕ → Bool) (pid : String) (fuel : ℕ) (e1 e2 e3 : FetchOutcome)
    (rest : List FetchOutcome) (st : SPagSt)
    (hce : st.consecutiveEmpty = 0)
    (h1 : (fetchTradesPage pid st.currentSince e1).1 = [])
    (h2 : (fetchTradesPage pid st.currentSince e2).1 = [])
    (h3 : (fetchTradesPage pid st.currentSince e3).1 = []) :
    streamRun iso earliest now cb pid (fuel + 3) (e1 :: e2 :: e3 :: rest) st
      = ({ st with requestCount := st.requestCount + 3, consecutiveEmpty := 3 },
         rest) := by
  have s1 := streamPageStep_empty_next iso earliest now cb pid st e1 h1
    (by omega)
  have s2 := streamPageStep_empty_next iso earliest now cb pid
    { st with requestCount := st.requestCount + 1,
              consecutiveEmpty := st.consecutiveEmpty + 1 } e2 h2
    (by dsimp only; omega)
  have s3 := streamPageStep_empty_done iso earliest now cb pid
    { st with requestCount := st.requestCount + 1 + 1,
              consecutiveEmpty := st.consecutiveEmpty + 1 + 1 } e3 h3
    (by dsimp only; omega)
  show streamRun iso earliest now cb pid ((fuel + 2) + 1)
      (e1 :: e2 :: e3 :: rest) st = _
  rw [streamRun]
  dsimp only [List.headD_cons, List.tail_cons]
  rw [s1]
  show streamRun iso earliest now cb pid ((fuel + 1) + 1) (e2 :: e3 :: rest) _ = _
  rw [streamRun]
  dsimp only [List.headD_cons, List.tail_cons]
  rw [s2]
  show streamRun iso earliest now cb pid (fuel + 1) (e3 :: rest) _ = _
  rw [streamRun]
  dsimp only [List.headD_cons, List.tail_cons]
  rw [s3, hce]

/-- Claim C5: (a) three consecutive empty pages make the per-product
loop stop after exactly those three requests, with nothing added to the
result and the remaining responses untouched; (b) any non-empty page
resets the consecutive-empty counter to zero; (c) at the top level the
fetcher then simply continues with the remaining product IDs — and, the
embedding being total functions, no exception escapes. -/
theorem C5_three_empty_pages :
    (∀ (iso : ℚ → String) (earliest now : ℚ) (cb : ℕ → Bool) (pid : String)
        (fuel : ℕ) (e1 e2 e3 : FetchOutcome) (rest : List FetchOutcome)
        (st : SPagSt),
      st.consecutiveEmpty = 0 →
      (fetchTradesPage pid st.currentSince e1).1 = [] →
      (fetchTradesPage pid st.currentSince e2).1 = [] →
      (fetchTradesPage pid st.currentSince e3).1 = [] →
      streamRun iso earliest now cb pid (fuel + 3) (e1 :: e2 :: e3 :: rest) st
        = ({ st with requestCount := st.requestCount + 3, consecutiveEmpty := 3 },
           rest))
    ∧ (∀ (iso : ℚ → String) (earliest now : ℚ) (cb : ℕ → Bool) (pid : String)
        (st : SPagSt) (o : FetchOutcome),
      (fetchTradesPage pid st.currentSince o).1 ≠ [] →
      ((streamPageStep iso earliest now cb pid st o).state).consecutiveEmpty = 0)
    ∧ (∀ (iso : ℚ → String) (earliest now : ℚ) (cb : ℕ → Bool) (pid : String)
        (ids : List String) (fuel : ℕ) (e1 e2 e3 : FetchOutcome)
        (rest : List FetchOutcome),
      (fetchTradesPage pid (convertToNanoseconds earliest) e1).1 = [] →
      (fetchTradesPage pid (convertToNanoseconds earliest) e2).1 = [] →
      (fetchTradesPage pid (convertToNanoseconds earliest) e3).1 = [] →
      getTradesStreaming iso earliest now cb (fuel + 3) (pid :: ids)
          (e1 :: e2 :: e3 :: rest)
        = getTradesStreaming iso earliest now cb (fuel + 3) ids rest) := by
  refine ⟨streamRun_three_empty, ?_, ?_⟩
  · intro iso earliest now cb pid st o hne
    unfold streamPageStep
    rcases hfp : fetchTradesPage pid st.currentSince o with ⟨td, li⟩
    rw [hfp] at hne
    dsimp only at hne ⊢
    have htd : td.isEmpty = false := by
      cases td with
      | nil => exact absurd rfl hne
      | cons a l => rfl
    simp only [htd, Bool.false_eq_true, if_false]
    repeat' split
    all_goals rfl
  · intro iso earliest now cb pid ids fuel e1 e2 e3 rest h1 h2 h3
    have hrun := streamRun_three_empty iso earliest now cb pid fuel e1 e2 e3 rest
      { currentSince := convertToNanoseconds earliest, requestCount := 0,
        consecutiveEmpty := 0, allTrades := [], trace := [] } rfl h1 h2 h3
    simp only [getTradesStreaming, hrun]
    simp only [List.nil_append]

/-- Witness for C5: two product IDs, every response empty; the first
product's three empty pages leave the rest of the queue to the second. -/
theorem C5_three_empty_pages_witness :
    (fetchTradesPage "BTC/EUR" (convertToNanoseconds 1000) .timeout).1 = []
      ∧ getTradesStreaming iso0 1000 2000 (fun _ => false) 3
          ["BTC/EUR", "ETH/EUR"]
          [.timeout, .timeout, .timeout, .timeout, .timeout, .timeout]
        = getTradesStreaming iso0 1000 2000 (fun _ => false) 3 ["ETH/EUR"]
            [.timeout, .timeout, .timeout] :=
  ⟨rfl,
   C5_three_empty_pages.2.2 iso0 1000 2000 (fun _ => false) "BTC/EUR"
     ["ETH/EUR"] 0 .timeout .timeout .timeout [.timeout, .timeout, .timeout]
     rfl rfl rfl⟩

/-- Claim C7: over any identical sequence of upstream page responses
(and any callback behaviour), the streaming fetcher and the batch
fetcher return the same final trade list. -/
theorem C7_streaming_batch_equiv :
    ∀ (iso : ℚ → String) (earliest now : ℚ) (cbFails : ℕ → Bool) (fuel : ℕ)
      (ids : List String) (env : List FetchOutcome),
      (getTradesStreaming iso earliest now cbFails fuel ids env).1
        = (KrakenRESTAPI.getTrades iso earliest now fuel ids env).1 := by
  intro iso earliest now cbFails fuel ids env
  exact (congrArg Prod.fst (top_SB iso earliest now cbFails fuel ids env)).symm

/-- Witness for C7 at a concrete run. -/
theorem C7_streaming_batch_equiv_witness :
    (getTradesStreaming iso0 0 0 (fun _ => false) 1 ["BTC/EUR"] []).1
      = (KrakenRESTAPI.getTrades iso0 0 0 1 ["BTC/EUR"] []).1 :=
  C7_streaming_batch_equiv iso0 0 0 (fun _ => false) 1 ["BTC/EUR"] []

/-- Claim C10: with the health-check counter at 10, an eleventh
consecutive empty poll forces the connector's connected flag to false
and raises the stale-connection exception into the iteration's handler
— whatever the elapsed silence time — incrementing the consecutive
error counter (fatal at 5, with health degraded); and the counter of
consecutive empty polls never exceeds 10 across any iteration. -/
theorem C10_forced_reconnect :
    (∀ (now : ℚ) (st : LiveSt) (h : HealthStatus) (conn : Bool),
      st.connectionHealthChecks = MAX_HEALTH_CHECKS_WITHOUT_DATA →
      (liveIterate now (.events []) st h conn).connected = false
        ∧ (liveIterate now (.events []) st h conn).caught
            = some "Stale connection detected, forcing reconnection"
        ∧ (liveIterate now (.events []) st h conn).st.consecutiveErrors
            = st.consecutiveErrors + 1
        ∧ (liveIterate now (.events []) st h conn).st.connectionHealthChecks = 0
        ∧ (st.consecutiveErrors + 1 < MAX_CONSECUTIVE_ERRORS →
            (liveIterate now (.events []) st h conn).outcome = .continued)
        ∧ (MAX_CONSECUTIVE_ERRORS ≤ st.consecutiveErrors + 1 →
            (liveIterate now (.events []) st h conn).outcome
                = .fatal (wsFailMsg (st.consecutiveErrors + 1))
              ∧ (liveIterate now (.events []) st h conn).health.healthy = false
              ∧ (liveIterate now (.events []) st h conn).health.ready = false))
    ∧ (∀ (now : ℚ) (poll : PollResult) (st : LiveSt) (h : HealthStatus)
        (conn : Bool),
      st.connectionHealthChecks ≤ MAX_HEALTH_CHECKS_WITHOUT_DATA →
      (liveIterate now poll st h conn).st.connectionHealthChecks
        ≤ MAX_HEALTH_CHECKS_WITHOUT_DATA) := by
  constructor
  · intro now st h conn hchk
    have hcond : now - st.lastSuccessfulTrade > MAX_SILENCE_DURATION
        ∨ st.connectionHealthChecks + 1 > MAX_HEALTH_CHECKS_WITHOUT_DATA :=
      Or.inr (by rw [hchk]; norm_num [MAX_HEALTH_CHECKS_WITHOUT_DATA])
    have hiter : liveIterate now (.events []) st h conn
        = liveExcept "Stale connection detected, forcing reconnection"
            { st with connectionHealthChecks := st.connectionHealthChecks + 1 }
            h false := by
      simp [liveIterate, hcond]
    by_cases hge : MAX_CONSECUTIVE_ERRORS ≤ st.consecutiveErrors + 1
    · refine ⟨?_, ?_, ?_, ?_, fun hlt => absurd hge (by omega),
        fun _ => ⟨?_, ?_, ?_⟩⟩ <;>
        simp [hiter, liveExcept, hge]
    · refine ⟨?_, ?_, ?_, ?_, fun _ => ?_, fun hge' => absurd hge' hge⟩ <;>
        simp [hiter, liveExcept, hge]
  · intro now poll st h conn hle
    cases poll with
    | raised msg =>
      simp only [liveIterate, liveExcept]
      split <;> simp [MAX_HEALTH_CHECKS_WITHOUT_DATA]
    | events batch =>
      by_cases hbe : batch.isEmpty
      · simp only [liveIterate, hbe, Bool.not_true, if_false, Bool.false_eq_true]
        split
        · simp only [liveExcept]
          split <;> simp [MAX_HEALTH_CHECKS_WITHOUT_DATA]
        · rename_i hnc
          have : ¬ (st.connectionHealthChecks + 1
              > MAX_HEALTH_CHECKS_WITHOUT_DATA) := fun hc => hnc (Or.inr hc)
          simpa using by omega
      · simp [liveIterate, hbe, MAX_HEALTH_CHECKS_WITHOUT_DATA]

/-- Witness for C10: at the concrete state with ten prior empty polls,
the eleventh forces the disconnect and the stale-connection exception. -/
theorem C10_forced_reconnect_witness :
    (liveIterate 0 (.events []) liveSt10 healthUp true).connected = false
      ∧ (liveIterate 0 (.events []) liveSt10 healthUp true).caught
          = some "Stale connection detected, forcing reconnection"
      ∧ (liveIterate 0 (.events []) liveSt10 healthUp true).st.consecutiveErrors
          = 1
      ∧ (liveIterate 0 (.events []) liveSt10 healthUp
          true).st.connectionHealthChecks = 0
      ∧ (liveIterate 0 (.events []) liveSt10 healthUp true).outcome
          = .continued := by
  obtain ⟨a, b, c, d, e, _⟩ :=
    C10_forced_reconnect.1 0 liveSt10 healthUp true rfl
  exact ⟨a, b, c, d, e (by norm_num [MAX_CONSECUTIVE_ERRORS, liveSt10])⟩

end Spec2Proof
